import Mathlib

/-!
Verification of the initializer in src/init.py (function init_collaboration,
lines 10-117) against its specification. The script is shallowly embedded:
the filesystem fragment it touches is an explicit state, each run is a pure
function from the starting state and the two datetime.now() results to an
event trace (filesystem operations and print calls, in program order) and a
final state, and operating-system failures are modelled by a separate
Except-valued transcription with explicit fault injection.
-/

namespace Aidioma

/-! ## Decimal rendering and timestamps (model of datetime.strftime) -/

/-- Character for a single decimal digit value (0-9 maps to codepoints 48-57). -/
def digitChar (n : Nat) : Char := Char.ofNat (48 + n)

/-- Decimal digit characters of a natural number, most significant first.
Models the decimal rendering that CPython strftime uses for each field. -/
def natDigits (n : Nat) : List Char :=
  if _h : n < 10 then [digitChar n]
  else natDigits (n / 10) ++ [digitChar (n % 10)]
decreasing_by
  simp_wf
  omega

/-- Zero-padding to two characters, as strftime %m, %d, %H, %M, %S do. -/
def pad2 (n : Nat) : List Char :=
  if n < 10 then '0' :: natDigits n else natDigits n

/-- Calendar timestamp, the value captured by one datetime.now() call. -/
structure DateTime where
  year : Nat
  month : Nat
  day : Nat
  hour : Nat
  minute : Nat
  second : Nat
deriving DecidableEq, Repr

/-- Field bounds that every CPython datetime.now() result satisfies
(datetime years range over 1..9999; the current era is four-digit). -/
def DateTime.Valid (t : DateTime) : Prop :=
  1000 ≤ t.year ∧ t.year ≤ 9999 ∧
  1 ≤ t.month ∧ t.month ≤ 12 ∧
  1 ≤ t.day ∧ t.day ≤ 31 ∧
  t.hour ≤ 23 ∧ t.minute ≤ 59 ∧ t.second ≤ 59

instance (t : DateTime) : Decidable t.Valid := by
  unfold DateTime.Valid
  infer_instance

/-- Model of strftime with format %Y-%m-%d %H:%M:%S (src/init.py lines 58, 77). -/
def fmtYmdHMS (t : DateTime) : String :=
  String.mk (natDigits t.year ++ '-' ::
    (pad2 t.month ++ '-' ::
      (pad2 t.day ++ ' ' ::
        (pad2 t.hour ++ ':' ::
          (pad2 t.minute ++ ':' :: pad2 t.second)))))

/-- A string has the shape YYYY-MM-DD HH:MM:SS: four digits, dash, two digits,
dash, two digits, space, two digits, colon, two digits, colon, two digits. -/
def IsTimestampFormat (s : String) : Prop :=
  ∃ y mo d h mi se : List Char,
    s.data = y ++ '-' :: (mo ++ '-' :: (d ++ ' ' :: (h ++ ':' :: (mi ++ ':' :: se)))) ∧
    y.length = 4 ∧ mo.length = 2 ∧ d.length = 2 ∧
    h.length = 2 ∧ mi.length = 2 ∧ se.length = 2 ∧
    (y ++ mo ++ d ++ h ++ mi ++ se).all Char.isDigit = true

/-- One string occurs inside another (substring containment on character data). -/
def StrContains (s sub : String) : Prop :=
  ∃ l r : List Char, s.data = l ++ sub.data ++ r

/-- Boolean test: pat is a leading segment of l. -/
def leadsB : List Char → List Char → Bool
  | [], _ => true
  | _ :: _, [] => false
  | a :: pat, b :: l => a == b && leadsB pat l

/-- Boolean substring test: pat occurs somewhere inside l. -/
def hasSegB (pat : List Char) : List Char → Bool
  | [] => leadsB pat []
  | c :: l => leadsB pat (c :: l) || hasSegB pat l

/-- Boolean substring test on strings. -/
def containsB (s sub : String) : Bool := hasSegB sub.data s.data

/-- Two decimal digit characters occur adjacently somewhere in the list. -/
def hasAdjacentDigits : List Char → Bool
  | a :: b :: rest => (a.isDigit && b.isDigit) || hasAdjacentDigits (b :: rest)
  | _ => false

/-! ## Filesystem state (the fragment init.py can observe or change) -/

/-- Filesystem state: the set of existing directories and, for each existing
file, its current content. Files are an association list in which the most
recent write for a path is found first by lookup. -/
structure FS where
  dirs : List String
  files : List (String × String)
deriving DecidableEq, Repr

/-- Model of Path.exists() for a file path (src/init.py lines 21, 55, 74). -/
def FS.fileExists (fs : FS) (p : String) : Bool :=
  (fs.files.lookup p).isSome

/-- Directory existence test, used by Path.mkdir. -/
def FS.dirExists (fs : FS) (p : String) : Bool :=
  fs.dirs.contains p

/-- Model of Path.write_text: create or truncate-and-overwrite the file. -/
def FS.writeText (fs : FS) (p c : String) : FS :=
  { fs with files := (p, c) :: fs.files }

/-- Model of Path.mkdir(exist_ok=True) when the operating system reports no
fault: create the directory if absent, do nothing if present. -/
def FS.mkdirExistOk (fs : FS) (p : String) : FS :=
  if fs.dirExists p then fs else { fs with dirs := p :: fs.dirs }

/-- Filesystem-level failures (permission or disk errors, and the
FileExistsError that mkdir without exist_ok would raise). -/
inductive FsError where
  | fileAlreadyThere (p : String)
  | osFailure (p : String)
deriving DecidableEq, Repr

/-- Model of Path.mkdir with an explicit exist_ok flag and an injected
operating-system fault: a fault raises; otherwise an existing directory
raises exactly when exist_ok is false. -/
def FS.mkdirE (fs : FS) (p : String) (existOk : Bool) (fault : Bool) :
    Except FsError FS :=
  if fault then .error (.osFailure p)
  else if fs.dirExists p then
    if existOk then .ok fs else .error (.fileAlreadyThere p)
  else .ok { fs with dirs := p :: fs.dirs }

/-- Model of Path.write_text with an injected operating-system fault. -/
def FS.writeTextE (fs : FS) (p c : String) (fault : Bool) : Except FsError FS :=
  if fault then .error (.osFailure p) else .ok (fs.writeText p c)

/-! ## Fixed strings of src/init.py -/

/-- The sixty-character separator produced by repeating the equals sign. -/
def eqBar : String := String.mk (List.replicate 60 '=')

/-- Path logs/, src/init.py line 15. -/
def logsPath : String := "logs"

/-- Path logs/ai_chat.md, src/init.py line 20. -/
def aiChatPath : String := "logs/ai_chat.md"

/-- Path logs/dev_log.md, src/init.py line 54. -/
def devLogPath : String := "logs/dev_log.md"

/-- Path logs/archived_logs.md, src/init.py line 73. -/
def archivedPath : String := "logs/archived_logs.md"

/-- The three file paths in the order the script handles them. -/
def threePaths : List String := [aiChatPath, devLogPath, archivedPath]

/-- Template written to logs/ai_chat.md (src/init.py lines 22-48). -/
def aiChatContent : String :=
  "<!-- DEVELOPMENT WORKFLOW INSTRUCTIONS\nCURSOR (Cmd+Shift+D): \n1. Read this file (logs/ai_chat.md)\n2. Look for CURSOR_TURN in the last message\n3. Execute your current phase (PLAN → DELIVERABLES → DEVELOP → REVIEW)\n4. Write timestamped response below\n5. End with COPILOT_TURN or HUMAN_APPROVAL_NEEDED\n\nCOPILOT (Cmd+Shift+R):\n1. Read this file (logs/ai_chat.md)\n2. Look for COPILOT_TURN in the last message\n3. Review based on phase (PRE-DEV → CODE → FINAL)\n4. Write timestamped response below\n5. End with CURSOR_TURN or HUMAN_APPROVAL_NEEDED\n\nKeep messages concise. Update dev_log.md with summaries.\n-->\n\n# AI Development Chat\n\n## Current Task: None\n## Current Phase: PLAN\n\n---\n\nSTART - Press Cmd+Shift+D in Cursor to begin the first development cycle.\n"

/-- Template written to logs/dev_log.md (src/init.py lines 56-67); the
parameter is the datetime.now() result formatted at line 58. -/
def devLogContent (t : DateTime) : String :=
  "# Development Log\n\nStarted: " ++ fmtYmdHMS t ++
  "\n\n## PREDEVELOPMENT PLAN\n\n## PREDEVELOPMENT DELIVERABLES\n\n## POST DEVELOPMENT\n\n---\n"

/-- Template written to logs/archived_logs.md (src/init.py lines 75-82); the
parameter is the datetime.now() result formatted at line 77. -/
def archivedContent (t : DateTime) : String :=
  "# Archived Logs\n\nCreated: " ++ fmtYmdHMS t ++
  "\n\nThis file stores older conversations and logs for reference.\n\n---\n"

/-- The fixed block of setup-instruction print calls, src/init.py lines
88-117, one list element per print call. -/
def setupLines : List String :=
  ["\n" ++ eqBar,
   "📋 SETUP INSTRUCTIONS",
   eqBar,
   "\n1️⃣  In Cursor, set up this keyboard shortcut:",
   "   Cmd/Ctrl + Shift + D → Triggers development cycle",
   "\n   Give Cursor this simple instruction:",
   "   \x27Read logs/ai_chat.md and follow the instructions at the top\x27",
   "\n2️⃣  In VSCode with Copilot, set up:",
   "   Cmd/Ctrl + Shift + R → Triggers review cycle",
   "\n   Give Copilot this simple instruction:",
   "   \x27Read logs/ai_chat.md and follow the instructions at the top\x27",
   "\n3️⃣  Run the status dashboard (optional):",
   "   python status.py",
   "\n4️⃣  Start development:",
   "   Press Cmd+Shift+D in Cursor",
   "\n" ++ eqBar,
   "✨ Ready! The AIs will communicate through logs/ai_chat.md",
   eqBar,
   "\n📁 Created structure:",
   "   logs/",
   "   ├── ai_chat.md       (AI communication)",
   "   ├── dev_log.md       (Development record)",
   "   └── archived_logs.md (Old conversations)",
   eqBar]

/-! ## The initializer as a trace-producing state transformer -/

/-- One observable step of the run: a directory creation, a file existence
check with its result, a file write with its content, or a print call. -/
inductive Event where
  | mkdirOk (path : String)
  | checkFile (path : String) (present : Bool)
  | writeFile (path content : String)
  | printLine (line : String)
deriving DecidableEq, Repr

/-- The check-then-write-then-report block the script repeats for each of the
three files (src/init.py lines 20-27, 53-58, 72-77 with their prints):
if the file exists, only report; otherwise write the template and report. -/
def handleFile (fs : FS) (path content createdMsg existsMsg : String) :
    List Event × FS :=
  if fs.fileExists path then
    ([Event.checkFile path true, Event.printLine existsMsg], fs)
  else
    ([Event.checkFile path false, Event.writeFile path content,
      Event.printLine createdMsg],
     fs.writeText path content)

/-- Shallow embedding of init_collaboration (src/init.py lines 10-117) in the
fault-free case: the event trace in program order and the final filesystem.
The two datetime.now() results (lines 58 and 77) are the parameters t1, t2. -/
def init_collaboration (fs0 : FS) (t1 t2 : DateTime) : List Event × FS :=
  let fs1 := fs0.mkdirExistOk logsPath
  let hA := handleFile fs1 aiChatPath aiChatContent
    "✅ Created logs/ai_chat.md" "📄 logs/ai_chat.md already exists"
  let hD := handleFile hA.2 devLogPath (devLogContent t1)
    "✅ Created logs/dev_log.md" "📄 logs/dev_log.md already exists"
  let hR := handleFile hD.2 archivedPath (archivedContent t2)
    "✅ Created logs/archived_logs.md" "📄 logs/archived_logs.md already exists"
  ([Event.printLine "🚀 Initializing AI Collaboration System...",
    Event.mkdirOk logsPath,
    Event.printLine "📁 Created logs/ directory"]
   ++ hA.1 ++ hD.1 ++ hR.1 ++ setupLines.map Event.printLine,
   hR.2)

/-- Event trace of a fault-free run. -/
def initTrace (fs0 : FS) (t1 t2 : DateTime) : List Event :=
  (init_collaboration fs0 t1 t2).1

/-- Final filesystem state of a fault-free run. -/
def initFS (fs0 : FS) (t1 t2 : DateTime) : FS :=
  (init_collaboration fs0 t1 t2).2

/-- The printed string of an event, if it is a print call. -/
def printOf : Event → Option String
  | .printLine s => some s
  | _ => none

/-- Console output of a fault-free run: the arguments of the print calls in
order (print itself appends one newline to each). -/
def initOut (fs0 : FS) (t1 t2 : DateTime) : List String :=
  (initTrace fs0 t1 t2).filterMap printOf

/-! ## The initializer with injected operating-system faults -/

/-- Fault injection: whether the operating system fails each of the four
creation operations (the mkdir and the three write_text calls), should the
run reach that operation. -/
structure Faults where
  atMkdir : Bool
  atAiChat : Bool
  atDevLog : Bool
  atArchived : Bool
deriving DecidableEq, Repr

/-- The fault-free environment. -/
def noFaults : Faults := ⟨false, false, false, false⟩

/-- Transcription of init_collaboration with fault injection. The script has
no try/except (src/init.py has none), so every raised error leaves the
function immediately: each step is sequenced with Except bind and no
alternative is ever taken on error. -/
def init_collaborationE (fl : Faults) (fs0 : FS) (t1 t2 : DateTime) :
    Except FsError FS := do
  let fs1 ← fs0.mkdirE logsPath true fl.atMkdir
  let fs2 ←
    if fs1.fileExists aiChatPath then pure fs1
    else fs1.writeTextE aiChatPath aiChatContent fl.atAiChat
  let fs3 ←
    if fs2.fileExists devLogPath then pure fs2
    else fs2.writeTextE devLogPath (devLogContent t1) fl.atDevLog
  let fs4 ←
    if fs3.fileExists archivedPath then pure fs3
    else fs3.writeTextE archivedPath (archivedContent t2) fl.atArchived
  pure fs4

/-- Modelled from the spec: the process exit status of running
src/init.py as a script. CPython exits with status 0 when the module body
runs to completion and with status 1 when an exception propagates out
uncaught; the script installs no exception handler and calls sys.exit
nowhere. -/
def mainExitCode (fl : Faults) (fs0 : FS) (t1 t2 : DateTime) : Nat :=
  match init_collaborationE fl fs0 t1 t2 with
  | .ok _ => 0
  | .error _ => 1

/-- The run reaches a faulted operation: the mkdir fault always fires, and a
write fault fires exactly when its file is absent at the start (earlier
writes never create a later file, so the initial check decides execution). -/
def anyExecutedFault (fl : Faults) (fs0 : FS) : Bool :=
  fl.atMkdir ||
  (!fs0.fileExists aiChatPath && fl.atAiChat) ||
  (!fs0.fileExists devLogPath && fl.atDevLog) ||
  (!fs0.fileExists archivedPath && fl.atArchived)

/-- Success test for the Except-valued run. -/
def exceptOk : Except FsError FS → Bool
  | .ok _ => true
  | .error _ => false

/-! ## Sample concrete inputs for witnesses -/

/-- The empty working directory: no logs directory, no files. -/
def emptyFS : FS := ⟨[], []⟩

/-- A sample wall-clock value. -/
def sampleDT : DateTime := ⟨2025, 10, 12, 9, 5, 3⟩

/-! ## Basic laws of the filesystem operations -/

theorem files_mkdirExistOk (fs : FS) (p : String) :
    (fs.mkdirExistOk p).files = fs.files := by
  unfold FS.mkdirExistOk
  split <;> rfl

theorem fileExists_mkdirExistOk (fs : FS) (p q : String) :
    (fs.mkdirExistOk q).fileExists p = fs.fileExists p := by
  unfold FS.fileExists
  rw [files_mkdirExistOk]

theorem dirExists_mkdirExistOk_self (fs : FS) (p : String) :
    (fs.mkdirExistOk p).dirExists p = true := by
  unfold FS.mkdirExistOk
  split
  · assumption
  · simp [FS.dirExists]

theorem mkdirExistOk_of_dirExists (fs : FS) (p : String)
    (h : fs.dirExists p = true) : fs.mkdirExistOk p = fs := by
  unfold FS.mkdirExistOk
  simp [h]

theorem dirExists_writeText (fs : FS) (p q c : String) :
    (fs.writeText q c).dirExists p = fs.dirExists p := rfl

theorem lookup_writeText (fs : FS) (p q c : String) :
    (fs.writeText q c).files.lookup p =
      if p == q then some c else fs.files.lookup p := by
  cases h : (p == q) <;> simp [FS.writeText, List.lookup, h]

theorem fileExists_writeText (fs : FS) (p q c : String) :
    (fs.writeText q c).fileExists p = ((p == q) || fs.fileExists p) := by
  unfold FS.fileExists
  rw [lookup_writeText]
  cases h : (p == q) <;> simp [h]

theorem fileExists_writeText_self (fs : FS) (p c : String) :
    (fs.writeText p c).fileExists p = true := by
  rw [fileExists_writeText]
  simp

theorem dev_beq_ai : (devLogPath == aiChatPath) = false := by decide

theorem arch_beq_ai : (archivedPath == aiChatPath) = false := by decide

theorem arch_beq_dev : (archivedPath == devLogPath) = false := by decide

theorem ai_beq_dev : (aiChatPath == devLogPath) = false := by decide

theorem ai_beq_arch : (aiChatPath == archivedPath) = false := by decide

theorem dev_beq_arch : (devLogPath == archivedPath) = false := by decide

/-! ## Laws of decimal rendering and the timestamp format -/

theorem digitChar_isDigit (n : Nat) (h : n < 10) :
    (digitChar n).isDigit = true := by
  interval_cases n <;> decide

theorem natDigits_small (n : Nat) (h : n < 10) :
    natDigits n = [digitChar n] := by
  rw [natDigits, dif_pos h]

theorem natDigits_step (n : Nat) (h : 10 ≤ n) :
    natDigits n = natDigits (n / 10) ++ [digitChar (n % 10)] := by
  rw [natDigits, dif_neg (by omega)]

theorem natDigits_all_digits (n : Nat) :
    (natDigits n).all Char.isDigit = true := by
  induction n using Nat.strong_induction_on with
  | _ n ih =>
    by_cases h : n < 10
    · rw [natDigits_small n h]
      simp [digitChar_isDigit n h]
    · rw [natDigits_step n (by omega), List.all_append]
      have h1 := ih (n / 10) (by omega)
      have h2 := digitChar_isDigit (n % 10) (Nat.mod_lt _ (by omega))
      simp [h1, h2]

theorem natDigits_length_one (n : Nat) (h : n < 10) :
    (natDigits n).length = 1 := by
  rw [natDigits_small n h]
  rfl

theorem natDigits_length_two (n : Nat) (h1 : 10 ≤ n) (h2 : n < 100) :
    (natDigits n).length = 2 := by
  rw [natDigits_step n h1, List.length_append,
    natDigits_length_one (n / 10) (by omega)]
  rfl

theorem natDigits_length_four (n : Nat) (h1 : 1000 ≤ n) (h2 : n ≤ 9999) :
    (natDigits n).length = 4 := by
  rw [natDigits_step n (by omega), List.length_append,
    natDigits_step (n / 10) (by omega), List.length_append,
    natDigits_length_two (n / 10 / 10) (by omega) (by omega)]
  rfl

theorem pad2_length (n : Nat) (h : n < 100) : (pad2 n).length = 2 := by
  unfold pad2
  split
  · next h10 => rw [List.length_cons, natDigits_length_one n h10]
  · next h10 => exact natDigits_length_two n (by omega) h

theorem pad2_all_digits (n : Nat) : (pad2 n).all Char.isDigit = true := by
  unfold pad2
  split
  · simp [natDigits_all_digits]
  · exact natDigits_all_digits n

/-- A valid wall-clock value formats to the YYYY-MM-DD HH:MM:SS shape. -/
theorem fmtYmdHMS_format (t : DateTime) (h : t.Valid) :
    IsTimestampFormat (fmtYmdHMS t) := by
  obtain ⟨hy1, hy2, hmo1, hmo2, hd1, hd2, hh, hmi, hs⟩ := h
  refine ⟨natDigits t.year, pad2 t.month, pad2 t.day,
    pad2 t.hour, pad2 t.minute, pad2 t.second, rfl,
    natDigits_length_four t.year hy1 hy2,
    pad2_length t.month (by omega), pad2_length t.day (by omega),
    pad2_length t.hour (by omega), pad2_length t.minute (by omega),
    pad2_length t.second (by omega), ?_⟩
  simp [List.all_append, natDigits_all_digits, pad2_all_digits]

theorem strData_append (a b : String) : (a ++ b).data = a.data ++ b.data := rfl

theorem strContains_devLogContent (t : DateTime) :
    StrContains (devLogContent t) (fmtYmdHMS t) := by
  refine ⟨("# Development Log\n\nStarted: ").data,
    ("\n\n## PREDEVELOPMENT PLAN\n\n## PREDEVELOPMENT DELIVERABLES\n\n## POST DEVELOPMENT\n\n---\n").data, ?_⟩
  rw [devLogContent, strData_append, strData_append, List.append_assoc]

theorem strContains_archivedContent (t : DateTime) :
    StrContains (archivedContent t) (fmtYmdHMS t) := by
  refine ⟨("# Archived Logs\n\nCreated: ").data,
    ("\n\nThis file stores older conversations and logs for reference.\n\n---\n").data, ?_⟩
  rw [archivedContent, strData_append, strData_append, List.append_assoc]

/-! ## Adjacent digits and substring containment -/

theorem hasAdjacentDigits_append_right (l r : List Char)
    (h : hasAdjacentDigits l = true) : hasAdjacentDigits (l ++ r) = true := by
  induction l with
  | nil => simp [hasAdjacentDigits] at h
  | cons a l ih =>
    cases l with
    | nil => simp [hasAdjacentDigits] at h
    | cons b l2 =>
      simp only [hasAdjacentDigits, Bool.or_eq_true] at h
      simp only [List.cons_append, hasAdjacentDigits, Bool.or_eq_true]
      rcases h with h | h
      · exact Or.inl h
      · exact Or.inr (by simpa using ih (by simpa [hasAdjacentDigits] using h))

theorem hasAdjacentDigits_append_left (p s : List Char)
    (h : hasAdjacentDigits s = true) : hasAdjacentDigits (p ++ s) = true := by
  induction p with
  | nil => simpa
  | cons c p ih =>
    cases hx : p ++ s with
    | nil =>
      rcases List.append_eq_nil.mp hx with ⟨_, rfl⟩
      simp [hasAdjacentDigits] at h
    | cons d ys =>
      have : hasAdjacentDigits (d :: ys) = true := hx ▸ ih
      simp only [List.cons_append, hx, hasAdjacentDigits, Bool.or_eq_true]
      exact Or.inr this

/-- Substring containment transports an adjacent digit pair to the whole. -/
theorem hasAdjacentDigits_of_strContains (s sub : String)
    (hc : StrContains s sub) (h : hasAdjacentDigits sub.data = true) :
    hasAdjacentDigits s.data = true := by
  obtain ⟨l, r, hd⟩ := hc
  rw [hd, List.append_assoc]
  exact hasAdjacentDigits_append_left l _
    (hasAdjacentDigits_append_right sub.data r h)

set_option maxRecDepth 40000 in
/-- The ai_chat.md template has no two adjacent decimal digits. -/
theorem aiChatContent_no_adjacent_digits :
    hasAdjacentDigits aiChatContent.data = false := by decide

/-- Any string of the timestamp shape starts with two adjacent digits. -/
theorem hasAdjacentDigits_of_format (s : String) (h : IsTimestampFormat s) :
    hasAdjacentDigits s.data = true := by
  obtain ⟨y, mo, d, hh, mi, se, hd, hy, _, _, _, _, _, hall⟩ := h
  match y, hy with
  | [a, b, c, e], _ =>
    have hab : a.isDigit = true ∧ b.isDigit = true := by
      simp [List.all_append, List.all_cons] at hall
      exact ⟨hall.1, hall.2.1⟩
    rw [hd]
    simp [hasAdjacentDigits, hab.1, hab.2]

/-! ## Characterization of a fault-free run -/

theorem handleFile_fs (fs : FS) (path content cm em : String) :
    (handleFile fs path content cm em).2 =
      if fs.fileExists path then fs else fs.writeText path content := by
  unfold handleFile
  split <;> rfl

theorem handleFile_events (fs : FS) (path content cm em : String) :
    (handleFile fs path content cm em).1 =
      if fs.fileExists path then
        [Event.checkFile path true, Event.printLine em]
      else
        [Event.checkFile path false, Event.writeFile path content,
         Event.printLine cm] := by
  unfold handleFile
  split <;> rfl

theorem dirs_handleFile (fs : FS) (path content cm em : String) :
    ((handleFile fs path content cm em).2).dirs = fs.dirs := by
  unfold handleFile
  split <;> rfl

theorem lookup_handleFile (fs : FS) (path content cm em p : String) :
    ((handleFile fs path content cm em).2).files.lookup p =
      if p == path && !fs.fileExists path then some content
      else fs.files.lookup p := by
  rw [handleFile_fs]
  cases hE : fs.fileExists path <;> cases hp : p == path <;>
    simp [hE, hp, lookup_writeText]

theorem fileExists_handleFile (fs : FS) (path content cm em p : String) :
    ((handleFile fs path content cm em).2).fileExists p =
      (p == path || fs.fileExists p) := by
  rw [handleFile_fs]
  cases hE : fs.fileExists path <;> cases hp : p == path <;>
    simp [hE, hp, fileExists_writeText]
  exact (beq_iff_eq.mp hp) ▸ hE

/-- Content of every path after a run: each absent file gains its template,
everything else keeps its previous content. -/
theorem lookup_initFS (fs : FS) (t1 t2 : DateTime) (p : String) :
    (initFS fs t1 t2).files.lookup p =
      if p == archivedPath && !fs.fileExists archivedPath then
        some (archivedContent t2)
      else if p == devLogPath && !fs.fileExists devLogPath then
        some (devLogContent t1)
      else if p == aiChatPath && !fs.fileExists aiChatPath then
        some aiChatContent
      else fs.files.lookup p := by
  simp only [initFS, init_collaboration]
  simp only [lookup_handleFile, fileExists_handleFile, fileExists_mkdirExistOk,
    files_mkdirExistOk, arch_beq_dev, arch_beq_ai, dev_beq_ai,
    Bool.false_or, Bool.or_false]

/-- Existence of every path after a run: the three files exist, and any other
path exists exactly when it did before. -/
theorem fileExists_initFS (fs : FS) (t1 t2 : DateTime) (p : String) :
    (initFS fs t1 t2).fileExists p =
      (p == archivedPath || p == devLogPath || p == aiChatPath ||
        fs.fileExists p) := by
  simp only [initFS, init_collaboration]
  simp only [fileExists_handleFile, fileExists_mkdirExistOk]
  simp [Bool.or_assoc]

/-- The logs directory exists after every run. -/
theorem dirExists_initFS_logs (fs : FS) (t1 t2 : DateTime) :
    (initFS fs t1 t2).dirExists logsPath = true := by
  have h : (initFS fs t1 t2).dirs = (fs.mkdirExistOk logsPath).dirs := by
    simp only [initFS, init_collaboration]
    simp only [dirs_handleFile]
  unfold FS.dirExists
  rw [h]
  exact dirExists_mkdirExistOk_self fs logsPath

/-- A run on a state that already has the directory and all three files is a
complete no-op on the filesystem. -/
theorem initFS_noop (fs : FS) (t1 t2 : DateTime)
    (hdir : fs.dirExists logsPath = true)
    (hA : fs.fileExists aiChatPath = true)
    (hD : fs.fileExists devLogPath = true)
    (hR : fs.fileExists archivedPath = true) :
    initFS fs t1 t2 = fs := by
  simp [initFS, init_collaboration, handleFile,
    mkdirExistOk_of_dirExists fs logsPath hdir, hA, hD, hR]

/-- The event trace as a function of the three initial existence checks. -/
theorem initTrace_eq (fs : FS) (t1 t2 : DateTime) :
    initTrace fs t1 t2 =
      [Event.printLine "🚀 Initializing AI Collaboration System...",
       Event.mkdirOk logsPath,
       Event.printLine "📁 Created logs/ directory"]
      ++ (if fs.fileExists aiChatPath then
            [Event.checkFile aiChatPath true,
             Event.printLine "📄 logs/ai_chat.md already exists"]
          else
            [Event.checkFile aiChatPath false,
             Event.writeFile aiChatPath aiChatContent,
             Event.printLine "✅ Created logs/ai_chat.md"])
      ++ (if fs.fileExists devLogPath then
            [Event.checkFile devLogPath true,
             Event.printLine "📄 logs/dev_log.md already exists"]
          else
            [Event.checkFile devLogPath false,
             Event.writeFile devLogPath (devLogContent t1),
             Event.printLine "✅ Created logs/dev_log.md"])
      ++ (if fs.fileExists archivedPath then
            [Event.checkFile archivedPath true,
             Event.printLine "📄 logs/archived_logs.md already exists"]
          else
            [Event.checkFile archivedPath false,
             Event.writeFile archivedPath (archivedContent t2),
             Event.printLine "✅ Created logs/archived_logs.md"])
      ++ setupLines.map Event.printLine := by
  simp only [initTrace, init_collaboration]
  simp only [handleFile_events, fileExists_handleFile, fileExists_mkdirExistOk,
    dev_beq_ai, arch_beq_ai, arch_beq_dev, Bool.false_or, List.append_assoc]

theorem filterMap_printOf_map (l : List String) :
    (l.map Event.printLine).filterMap printOf = l := by
  induction l with
  | nil => rfl
  | cons a l ih => simp [printOf, ih]

theorem filterMap_printOf_comp (l : List String) :
    List.filterMap (printOf ∘ Event.printLine) l = l := by
  induction l with
  | nil => rfl
  | cons a l ih => simp [printOf, Function.comp, ih]

/-- The console output as a function of the three initial existence checks. -/
theorem initOut_eq (fs : FS) (t1 t2 : DateTime) :
    initOut fs t1 t2 =
      ["🚀 Initializing AI Collaboration System...",
       "📁 Created logs/ directory"]
      ++ (if fs.fileExists aiChatPath then
            ["📄 logs/ai_chat.md already exists"]
          else ["✅ Created logs/ai_chat.md"])
      ++ (if fs.fileExists devLogPath then
            ["📄 logs/dev_log.md already exists"]
          else ["✅ Created logs/dev_log.md"])
      ++ (if fs.fileExists archivedPath then
            ["📄 logs/archived_logs.md already exists"]
          else ["✅ Created logs/archived_logs.md"])
      ++ setupLines := by
  rw [initOut, initTrace_eq]
  cases fs.fileExists aiChatPath <;>
    cases fs.fileExists devLogPath <;>
      cases fs.fileExists archivedPath <;>
        simp [List.filterMap_append, filterMap_printOf_map,
          filterMap_printOf_comp, List.filterMap_cons, printOf]

/-- Any file content present before a run is still readable unchanged after
it: the run writes only to paths whose existence check failed. -/
theorem lookup_init_preserved (fs : FS) (t1 t2 : DateTime) (p c : String)
    (h : fs.files.lookup p = some c) :
    (initFS fs t1 t2).files.lookup p = some c := by
  have hex : fs.fileExists p = true := by
    unfold FS.fileExists
    rw [h]
    rfl
  rw [lookup_initFS]
  by_cases h1 : p = archivedPath
  · subst h1
    simp [hex, h, show archivedPath ≠ devLogPath by decide,
      show archivedPath ≠ aiChatPath by decide]
  · by_cases h2 : p = devLogPath
    · subst h2
      simp [hex, h, show devLogPath ≠ archivedPath by decide,
        show devLogPath ≠ aiChatPath by decide]
    · by_cases h3 : p = aiChatPath
      · subst h3
        simp [hex, h, show aiChatPath ≠ archivedPath by decide,
          show aiChatPath ≠ devLogPath by decide]
      · simp [beq_eq_false_iff_ne.mpr h1, beq_eq_false_iff_ne.mpr h2,
          beq_eq_false_iff_ne.mpr h3, h]

/-! ## Mutation events -/

/-- Whether an event changes the filesystem (directory creation or write);
existence checks are reads and print calls touch only the console. -/
def isMutation : Event → Bool
  | .mkdirOk _ => true
  | .writeFile _ _ => true
  | _ => false

/-- The filesystem-changing events of a trace, in order. -/
def fsMutations (tr : List Event) : List Event :=
  tr.filter isMutation

theorem filter_isMutation_map_printLine (l : List String) :
    (l.map Event.printLine).filter isMutation = [] := by
  induction l with
  | nil => rfl
  | cons a l ih => simp [isMutation, ih]

/-! ## The claims -/

/-- C1: For every starting filesystem state, running the initializer never
modifies the content of a pre-existing logs/ai_chat.md, logs/dev_log.md, or
logs/archived_logs.md (each file content is written only at first creation),
and running the initializer twice in succession leaves the whole filesystem,
in particular the contents of all three files, byte-identical after the
second run to after the first run. -/
theorem claim1_preserves_and_idempotent (fs : FS) (t1 t2 t3 t4 : DateTime) :
    (∀ p c, p ∈ threePaths → fs.files.lookup p = some c →
      (initFS fs t1 t2).files.lookup p = some c) ∧
    initFS (initFS fs t1 t2) t3 t4 = initFS fs t1 t2 := by
  constructor
  · intro p c _ hc
    exact lookup_init_preserved fs t1 t2 p c hc
  · apply initFS_noop
    · exact dirExists_initFS_logs fs t1 t2
    · simp [fileExists_initFS]
    · simp [fileExists_initFS]
    · simp [fileExists_initFS]

/-- Witness for C1: a pre-existing ai_chat.md with custom content is still
readable unchanged after a run on a concrete state. -/
theorem claim1_witness :
    (initFS ⟨[logsPath], [(aiChatPath, "custom content")]⟩ sampleDT
        sampleDT).files.lookup aiChatPath = some "custom content" :=
  (claim1_preserves_and_idempotent ⟨[logsPath], [(aiChatPath, "custom content")]⟩
    sampleDT sampleDT sampleDT sampleDT).1 aiChatPath "custom content"
    (by decide) (by decide)

/-- C2: From a state in which neither logs/ nor any of the three files
exists, a run creates exactly the four artifacts logs/, logs/ai_chat.md,
logs/dev_log.md and logs/archived_logs.md, and leaves every other directory
and file entry of the starting state exactly as it was: the final state is
the starting state plus precisely those four entries. -/
theorem claim2_exactly_four_artifacts (fs : FS) (t1 t2 : DateTime)
    (hdir : fs.dirExists logsPath = false)
    (hA : fs.fileExists aiChatPath = false)
    (hD : fs.fileExists devLogPath = false)
    (hR : fs.fileExists archivedPath = false) :
    initFS fs t1 t2 =
      ⟨logsPath :: fs.dirs,
       (archivedPath, archivedContent t2) ::
         (devLogPath, devLogContent t1) ::
           (aiChatPath, aiChatContent) :: fs.files⟩ := by
  have hA2 : (fs.files.lookup aiChatPath).isSome = false := hA
  have hD2 : (fs.files.lookup devLogPath).isSome = false := hD
  have hR2 : (fs.files.lookup archivedPath).isSome = false := hR
  simp [initFS, init_collaboration, handleFile_fs, FS.mkdirExistOk, hdir,
    FS.writeText, FS.fileExists, List.lookup, dev_beq_ai, arch_beq_ai,
    arch_beq_dev, hA2, hD2, hR2]

/-- Witness for C2: the empty working directory yields exactly the four
artifacts. -/
theorem claim2_witness :
    initFS emptyFS sampleDT sampleDT =
      ⟨[logsPath],
       [(archivedPath, archivedContent sampleDT),
        (devLogPath, devLogContent sampleDT),
        (aiChatPath, aiChatContent)]⟩ :=
  claim2_exactly_four_artifacts emptyFS sampleDT sampleDT rfl rfl rfl rfl

/-- C3: The first filesystem side effect of every run is ensuring that the
logs/ directory exists: the first mutation event of the trace is the mkdir
of logs/, afterwards the directory exists, the mkdir call (exist_ok set,
no injected fault) never returns an error — in particular, when the
directory already exists it succeeds and changes nothing. The path logs/
is a single component under the working directory, so it has no missing
parent directories; the parent-creation clause of the claim is vacuous. -/
theorem claim3_first_effect_ensures_dir (fs : FS) (t1 t2 : DateTime) :
    (∃ rest, fsMutations (initTrace fs t1 t2) = Event.mkdirOk logsPath :: rest) ∧
    fs.mkdirE logsPath true false = .ok (fs.mkdirExistOk logsPath) ∧
    (fs.mkdirExistOk logsPath).dirExists logsPath = true ∧
    (fs.dirExists logsPath = true → fs.mkdirE logsPath true false = .ok fs) := by
  refine ⟨?_, ?_, dirExists_mkdirExistOk_self fs logsPath, ?_⟩
  · refine ⟨(if fs.fileExists aiChatPath then [] else
        [Event.writeFile aiChatPath aiChatContent]) ++
      (if fs.fileExists devLogPath then [] else
        [Event.writeFile devLogPath (devLogContent t1)]) ++
      (if fs.fileExists archivedPath then [] else
        [Event.writeFile archivedPath (archivedContent t2)]), ?_⟩
    rw [initTrace_eq]
    cases fs.fileExists aiChatPath <;>
      cases fs.fileExists devLogPath <;>
        cases fs.fileExists archivedPath <;>
          simp [fsMutations, isMutation, List.filter_append,
            filter_isMutation_map_printLine]
  · unfold FS.mkdirE FS.mkdirExistOk
    rw [if_neg (by simp)]
    split <;> rfl
  · intro h
    unfold FS.mkdirE
    simp [h]

/-- Witness for C3: on a state where logs/ already exists, the mkdir call
returns success with the state unchanged. -/
theorem claim3_witness :
    FS.mkdirE ⟨[logsPath], []⟩ logsPath true false = .ok ⟨[logsPath], []⟩ :=
  (claim3_first_effect_ensures_dir ⟨[logsPath], []⟩ sampleDT sampleDT).2.2.2
    (by decide)

/-- The four artifacts as the spec names them. -/
def artifactNames : List String := ["logs/", aiChatPath, devLogPath, archivedPath]

/-- Whether an artifact named by the spec exists in the starting state. -/
def existedBefore (fs : FS) (a : String) : Bool :=
  if a == "logs/" then fs.dirExists logsPath else fs.fileExists a

/-- C4 as stated: for each of the four artifacts the console output holds an
already-exists line naming it when it pre-existed and a creation
confirmation line naming it when it was absent. -/
def ClaimC4 : Prop :=
  ∀ (fs : FS) (t1 t2 : DateTime), ∀ a ∈ artifactNames,
    (existedBefore fs a = true →
      ∃ s ∈ initOut fs t1 t2,
        containsB s "already exists" = true ∧ containsB s a = true) ∧
    (existedBefore fs a = false →
      ∃ s ∈ initOut fs t1 t2,
        containsB s "Created" = true ∧ containsB s a = true)

set_option maxRecDepth 100000 in
/-- C4 is false on the code: start from a state where the logs/ directory
already exists and the three files are absent. Every file is then created,
so no output line at all contains the words already exists, yet the
directory pre-existed — the script prints its creation line for logs/
unconditionally and never reports the directory as already existing. -/
theorem claim4_counterexample : ¬ ClaimC4 := by
  intro h
  obtain ⟨s, hs, hae, _⟩ :=
    (h ⟨[logsPath], []⟩ sampleDT sampleDT "logs/" (by decide)).1 (by decide)
  have hall : ∀ x ∈ initOut ⟨[logsPath], []⟩ sampleDT sampleDT,
      containsB x "already exists" = false := by decide
  rw [hall s hs] at hae
  exact Bool.false_ne_true hae

/-- C4 (amended): for each of the three files the console output contains
the already-exists line exactly when the file was present before the run
and the creation confirmation line exactly when it was absent; the logs/
directory creation line is printed unconditionally, whether or not the
directory pre-existed, and no already-exists report exists for it. -/
theorem claim4_amended_reports (fs : FS) (t1 t2 : DateTime) :
    (("📄 logs/ai_chat.md already exists" ∈ initOut fs t1 t2) ↔
      fs.fileExists aiChatPath = true) ∧
    (("✅ Created logs/ai_chat.md" ∈ initOut fs t1 t2) ↔
      fs.fileExists aiChatPath = false) ∧
    (("📄 logs/dev_log.md already exists" ∈ initOut fs t1 t2) ↔
      fs.fileExists devLogPath = true) ∧
    (("✅ Created logs/dev_log.md" ∈ initOut fs t1 t2) ↔
      fs.fileExists devLogPath = false) ∧
    (("📄 logs/archived_logs.md already exists" ∈ initOut fs t1 t2) ↔
      fs.fileExists archivedPath = true) ∧
    (("✅ Created logs/archived_logs.md" ∈ initOut fs t1 t2) ↔
      fs.fileExists archivedPath = false) ∧
    "📁 Created logs/ directory" ∈ initOut fs t1 t2 := by
  rw [initOut_eq]
  cases hA : fs.fileExists aiChatPath <;>
    cases hD : fs.fileExists devLogPath <;>
      cases hR : fs.fileExists archivedPath <;>
        simp [hA, hD, hR] <;> decide

/-- C5: whenever logs/dev_log.md (resp. logs/archived_logs.md) is created,
the content written is the template carrying the strftime rendering of the
clock value captured at that write — t1 at the dev_log write, t2 at the
archived_logs write — that rendering occurs inside the written content, and
for valid clock values it has the shape YYYY-MM-DD HH:MM:SS. -/
theorem claim5_creation_timestamps (fs : FS) (t1 t2 : DateTime)
    (h1 : t1.Valid) (h2 : t2.Valid) :
    (fs.fileExists devLogPath = false →
      Event.writeFile devLogPath (devLogContent t1) ∈ initTrace fs t1 t2 ∧
      StrContains (devLogContent t1) (fmtYmdHMS t1) ∧
      IsTimestampFormat (fmtYmdHMS t1)) ∧
    (fs.fileExists archivedPath = false →
      Event.writeFile archivedPath (archivedContent t2) ∈ initTrace fs t1 t2 ∧
      StrContains (archivedContent t2) (fmtYmdHMS t2) ∧
      IsTimestampFormat (fmtYmdHMS t2)) := by
  constructor
  · intro hD
    refine ⟨?_, strContains_devLogContent t1, fmtYmdHMS_format t1 h1⟩
    rw [initTrace_eq]
    simp [hD]
  · intro hR
    refine ⟨?_, strContains_archivedContent t2, fmtYmdHMS_format t2 h2⟩
    rw [initTrace_eq]
    simp [hR]

/-- Witness for C5 at a concrete state and clock. -/
theorem claim5_witness :
    Event.writeFile devLogPath (devLogContent sampleDT) ∈
      initTrace emptyFS sampleDT sampleDT :=
  (((claim5_creation_timestamps emptyFS sampleDT sampleDT
    (by decide) (by decide)).1) (by decide)).1

/-- C6: every write to logs/ai_chat.md, in every run, writes the one fixed
template — a string that does not depend on the clock values or on the
starting state; every write to logs/dev_log.md embeds the rendering of the
clock at its creation, as does every write to logs/archived_logs.md; and no
string of the timestamp shape occurs anywhere in the ai_chat.md template,
so exactly the two timestamped templates embed the clock. -/
theorem claim6_two_timestamped_templates (fs : FS) (t1 t2 : DateTime) :
    (∀ c, Event.writeFile aiChatPath c ∈ initTrace fs t1 t2 →
      c = aiChatContent) ∧
    (∀ c, Event.writeFile devLogPath c ∈ initTrace fs t1 t2 →
      c = devLogContent t1 ∧ StrContains c (fmtYmdHMS t1)) ∧
    (∀ c, Event.writeFile archivedPath c ∈ initTrace fs t1 t2 →
      c = archivedContent t2 ∧ StrContains c (fmtYmdHMS t2)) ∧
    (∀ s, IsTimestampFormat s → StrContains aiChatContent s → False) := by
  refine ⟨?_, ?_, ?_, ?_⟩
  · intro c hc
    rw [initTrace_eq] at hc
    cases hA : fs.fileExists aiChatPath <;>
      cases hD : fs.fileExists devLogPath <;>
        cases hR : fs.fileExists archivedPath <;>
          simp_all [List.mem_map,
            show aiChatPath ≠ devLogPath from by decide,
            show aiChatPath ≠ archivedPath from by decide,
            show devLogPath ≠ aiChatPath from by decide,
            show devLogPath ≠ archivedPath from by decide,
            show archivedPath ≠ aiChatPath from by decide,
            show archivedPath ≠ devLogPath from by decide]
  · intro c hc
    refine ?_
    have hmain : c = devLogContent t1 := by
      rw [initTrace_eq] at hc
      cases hA : fs.fileExists aiChatPath <;>
        cases hD : fs.fileExists devLogPath <;>
          cases hR : fs.fileExists archivedPath <;>
            simp_all [List.mem_map,
              show aiChatPath ≠ devLogPath from by decide,
              show aiChatPath ≠ archivedPath from by decide,
              show devLogPath ≠ aiChatPath from by decide,
              show devLogPath ≠ archivedPath from by decide,
              show archivedPath ≠ aiChatPath from by decide,
              show archivedPath ≠ devLogPath from by decide]
    exact ⟨hmain, hmain ▸ strContains_devLogContent t1⟩
  · intro c hc
    have hmain : c = archivedContent t2 := by
      rw [initTrace_eq] at hc
      cases hA : fs.fileExists aiChatPath <;>
        cases hD : fs.fileExists devLogPath <;>
          cases hR : fs.fileExists archivedPath <;>
            simp_all [List.mem_map,
              show aiChatPath ≠ devLogPath from by decide,
              show aiChatPath ≠ archivedPath from by decide,
              show devLogPath ≠ aiChatPath from by decide,
              show devLogPath ≠ archivedPath from by decide,
              show archivedPath ≠ aiChatPath from by decide,
              show archivedPath ≠ devLogPath from by decide]
    exact ⟨hmain, hmain ▸ strContains_archivedContent t2⟩
  · intro str hf hcon
    have hadj := hasAdjacentDigits_of_strContains aiChatContent str hcon
      (hasAdjacentDigits_of_format str hf)
    rw [aiChatContent_no_adjacent_digits] at hadj
    exact Bool.false_ne_true hadj

/-- Witness for C6 at a concrete run that writes dev_log.md. -/
theorem claim6_witness :
    devLogContent sampleDT = devLogContent sampleDT ∧
    StrContains (devLogContent sampleDT) (fmtYmdHMS sampleDT) :=
  (claim6_two_timestamped_templates emptyFS sampleDT sampleDT).2.1
    (devLogContent sampleDT)
    (by rw [initTrace_eq]; simp [emptyFS, FS.fileExists, List.lookup])

/-- The Except-valued run, in closed form: the first faulted operation the
run reaches determines the error; with no reachable fault the run returns
exactly the fault-free final state. -/
theorem initE_eq (fl : Faults) (fs : FS) (t1 t2 : DateTime) :
    init_collaborationE fl fs t1 t2 =
      (if fl.atMkdir then .error (.osFailure logsPath)
       else if !fs.fileExists aiChatPath && fl.atAiChat then
         .error (.osFailure aiChatPath)
       else if !fs.fileExists devLogPath && fl.atDevLog then
         .error (.osFailure devLogPath)
       else if !fs.fileExists archivedPath && fl.atArchived then
         .error (.osFailure archivedPath)
       else .ok (initFS fs t1 t2)) := by
  rcases fl with ⟨m, a, d, r⟩
  cases m <;> cases a <;> cases d <;> cases r <;>
    cases hG : fs.dirExists logsPath <;>
      cases hA : (fs.files.lookup aiChatPath).isSome <;>
        cases hD : (fs.files.lookup devLogPath).isSome <;>
          cases hR : (fs.files.lookup archivedPath).isSome <;>
            simp [init_collaborationE, FS.mkdirE, FS.writeTextE, bind,
              Except.bind, pure, Except.pure, FS.fileExists, FS.writeText,
              List.lookup, dev_beq_ai, arch_beq_ai, arch_beq_dev, hG,
              hA, hD, hR, initFS, init_collaboration, handleFile_fs,
              FS.mkdirExistOk]

/-- C7: the script catches no exception, so the run fails exactly when it
reaches a faulted creation operation, and then the operating-system error
itself is the result; the process exits 0 on success and 1 (nonzero) when
an error propagates out. With no faults the run succeeds and returns the
fault-free final state. -/
theorem claim7_errors_propagate_unhandled (fl : Faults) (fs : FS)
    (t1 t2 : DateTime) :
    exceptOk (init_collaborationE fl fs t1 t2) = !anyExecutedFault fl fs ∧
    init_collaborationE noFaults fs t1 t2 = .ok (initFS fs t1 t2) ∧
    mainExitCode fl fs t1 t2 = (if anyExecutedFault fl fs then 1 else 0) := by
  refine ⟨?_, ?_, ?_⟩
  · rw [initE_eq]
    rcases fl with ⟨m, a, d, r⟩
    cases m <;> cases a <;> cases d <;> cases r <;>
      cases hA : fs.fileExists aiChatPath <;>
        cases hD : fs.fileExists devLogPath <;>
          cases hR : fs.fileExists archivedPath <;>
            simp [exceptOk, anyExecutedFault, hA, hD, hR]
  · rw [initE_eq]
    simp [noFaults]
  · unfold mainExitCode
    rw [initE_eq]
    rcases fl with ⟨m, a, d, r⟩
    cases m <;> cases a <;> cases d <;> cases r <;>
      cases hA : fs.fileExists aiChatPath <;>
        cases hD : fs.fileExists devLogPath <;>
          cases hR : fs.fileExists archivedPath <;>
            simp [anyExecutedFault, hA, hD, hR]

/-- The path an event touches, if it touches one. -/
def eventPath : Event → Option String
  | .mkdirOk p => some p
  | .checkFile p _ => some p
  | .writeFile p _ => some p
  | .printLine _ => none

/-- C8: the side effects come in a fixed order on every run: the banner
print, then the mkdir of logs/ with its status line, then a block touching
only ai_chat.md, then a block touching only dev_log.md, then a block
touching only archived_logs.md (each file checked and possibly written
before the next is touched), and finally the fixed setup-instruction block,
which touches no path at all. -/
theorem claim8_fixed_order (fs : FS) (t1 t2 : DateTime) :
    ∃ a d r : List Event,
      initTrace fs t1 t2 =
        [Event.printLine "🚀 Initializing AI Collaboration System...",
         Event.mkdirOk logsPath,
         Event.printLine "📁 Created logs/ directory"]
        ++ a ++ d ++ r ++ setupLines.map Event.printLine ∧
      (a.filterMap eventPath).all (fun q => q == aiChatPath) = true ∧
      (d.filterMap eventPath).all (fun q => q == devLogPath) = true ∧
      (r.filterMap eventPath).all (fun q => q == archivedPath) = true := by
  refine ⟨_, _, _, initTrace_eq fs t1 t2, ?_, ?_, ?_⟩
  · cases hA : fs.fileExists aiChatPath <;> simp [eventPath]
  · cases hD : fs.fileExists devLogPath <;> simp [eventPath]
  · cases hR : fs.fileExists archivedPath <;> simp [eventPath]

/-- C9: the run never reads the content of any existing file — two starting
states agreeing on which of the four artifacts exist produce, for the same
clock values, the same full event trace, hence the same console output and
the same written contents. -/
theorem claim9_content_noninterference (fs fs2 : FS) (t1 t2 : DateTime)
    (_hdir : fs.dirExists logsPath = fs2.dirExists logsPath)
    (hai : fs.fileExists aiChatPath = fs2.fileExists aiChatPath)
    (hdev : fs.fileExists devLogPath = fs2.fileExists devLogPath)
    (harch : fs.fileExists archivedPath = fs2.fileExists archivedPath) :
    initOut fs t1 t2 = initOut fs2 t1 t2 ∧
    initTrace fs t1 t2 = initTrace fs2 t1 t2 := by
  have ht : initTrace fs t1 t2 = initTrace fs2 t1 t2 := by
    rw [initTrace_eq, initTrace_eq, hai, hdev, harch]
  exact ⟨by unfold initOut; rw [ht], ht⟩

/-- Witness for C9: two states whose ai_chat.md contents differ give the
same console output. -/
theorem claim9_witness :
    initOut ⟨[logsPath], [(aiChatPath, "AAA")]⟩ sampleDT sampleDT =
      initOut ⟨[logsPath], [(aiChatPath, "BBB")]⟩ sampleDT sampleDT :=
  (claim9_content_noninterference ⟨[logsPath], [(aiChatPath, "AAA")]⟩
    ⟨[logsPath], [(aiChatPath, "BBB")]⟩ sampleDT sampleDT
    (by decide) (by decide) (by decide) (by decide)).1

/-- C10: each file is handled independently: after a run on any starting
state all four artifacts exist, each file absent before the run now holds
its template, every pre-existing file content is still readable unchanged,
and no path outside the three is touched. -/
theorem claim10_independent_per_file (fs : FS) (t1 t2 : DateTime) :
    (initFS fs t1 t2).dirExists logsPath = true ∧
    (initFS fs t1 t2).fileExists aiChatPath = true ∧
    (initFS fs t1 t2).fileExists devLogPath = true ∧
    (initFS fs t1 t2).fileExists archivedPath = true ∧
    (fs.fileExists aiChatPath = false →
      (initFS fs t1 t2).files.lookup aiChatPath = some aiChatContent) ∧
    (fs.fileExists devLogPath = false →
      (initFS fs t1 t2).files.lookup devLogPath = some (devLogContent t1)) ∧
    (fs.fileExists archivedPath = false →
      (initFS fs t1 t2).files.lookup archivedPath =
        some (archivedContent t2)) ∧
    (∀ p c, fs.files.lookup p = some c →
      (initFS fs t1 t2).files.lookup p = some c) ∧
    (∀ p, p ∉ threePaths →
      (initFS fs t1 t2).files.lookup p = fs.files.lookup p) := by
  refine ⟨dirExists_initFS_logs fs t1 t2, ?_, ?_, ?_, ?_, ?_, ?_, ?_, ?_⟩
  · simp [fileExists_initFS]
  · simp [fileExists_initFS]
  · simp [fileExists_initFS]
  · intro h
    simp [lookup_initFS, h, ai_beq_arch, ai_beq_dev]
  · intro h
    simp [lookup_initFS, h, dev_beq_arch, dev_beq_ai]
  · intro h
    simp [lookup_initFS, h]
  · intro p c hc
    exact lookup_init_preserved fs t1 t2 p c hc
  · intro p hp
    simp [threePaths] at hp
    rw [lookup_initFS]
    simp [beq_eq_false_iff_ne.mpr hp.1, beq_eq_false_iff_ne.mpr hp.2.1,
      beq_eq_false_iff_ne.mpr hp.2.2]

/-- Witness for C10: on the empty state, ai_chat.md holds its template after
the run. -/
theorem claim10_witness :
    (initFS emptyFS sampleDT sampleDT).files.lookup aiChatPath =
      some aiChatContent :=
  (claim10_independent_per_file emptyFS sampleDT sampleDT).2.2.2.2.1
    (by decide)

end Aidioma
